import Mathlib

/-!
Verification model of the HackDeck presentation-generation pipeline
(`app/main.py` and the services it orchestrates).  Python strings are
modelled as Lean `String` values, or as `List Char` where character-level
reasoning is needed; external collaborators (git, the digest tool, the
Gemini API, the Presenton API, the preference store, the filesystem) are
modelled as explicit parameters returning `Except` results, mirroring
Python exceptions.
-/

namespace HackDeck

/-- The character class Python `str.strip()` removes. -/
def pyIsSpace (c : Char) : Bool :=
  c == ' ' || c == '\t' || c == '\n' || c == '\r' || c == '\x0b' || c == '\x0c'

/-- Python `str.strip()` on a character list. -/
def pyStripList (l : List Char) : List Char :=
  ((l.dropWhile pyIsSpace).reverse.dropWhile pyIsSpace).reverse

/-- Python `str.strip()`. -/
def pyStrip (s : String) : String :=
  String.mk (pyStripList s.data)

/-- Python `str.startswith` on character lists. -/
def listStartsWith : List Char → List Char → Bool
  | [], _ => true
  | _ :: _, [] => false
  | p :: ps, c :: cs => p == c && listStartsWith ps cs

/-! ## DigestService (`app/services/digest_service.py`) -/

/-- The marker `DigestService.summarize_digest` appends after truncating. -/
def truncationMarker : List Char :=
  "\n\n... [Content truncated due to size limits] ...".data

/-- Default of the `max_length` argument of `summarize_digest`. -/
def defaultDigestMaxLength : Nat := 50000

/-- Embedding of `DigestService.summarize_digest` (digest_service.py lines 91-111): return the
digest unchanged when its length is within `max_length`, otherwise keep the
first `max_length` characters and append the truncation marker. -/
def summarize_digest (digest : List Char) (max_length : Nat) : List Char :=
  if digest.length ≤ max_length then digest
  else digest.take max_length ++ truncationMarker

/-! ## JSON-like values (the shapes `json.loads` produces for the analysis
responses these claims are about). -/

/-- A JSON value as found in a Gemini analysis response: JSON `null`, a string,
or a list of strings. -/
inductive PyVal where
  | null
  | str (s : String)
  | strList (l : List String)
deriving DecidableEq

/-- A Python dict from `json.loads`, as an association list (first binding
wins on lookup, matching dict access where keys are unique). -/
abbrev AnalysisDict := List (String × PyVal)

/-- Python `key in analysis` for a dict. -/
def dictHasKey (d : AnalysisDict) (k : String) : Bool :=
  d.any (fun kv => kv.1 == k)

/-- Python `repr` of a list of strings (as interpolated into the
missing-keys error message); the strings here contain no quotes. -/
def pyReprList (l : List String) : String :=
  "[" ++ String.intercalate ", " (l.map (fun x => "\x27" ++ x ++ "\x27")) ++ "]"

/-! ## LLMService (`app/services/llm_service.py`) -/

/-- The ten required keys checked by `LLMService.analyze_codebase`. -/
def required_keys : List String :=
  ["project_name", "tagline", "problem", "solution",
   "tech_stack", "key_features", "innovation",
   "architecture", "demo_highlights", "future_scope"]

/-- Code-fence stripping in `analyze_codebase` (lines 53-62): strip
whitespace, drop a leading three-backtick-json marker, a leading
three-backtick marker, a trailing three-backtick marker, strip again. -/
def stripCodeFences (raw : String) : String :=
  let content := pyStripList raw.data
  let content := if listStartsWith "```json".data content then content.drop 7 else content
  let content := if listStartsWith "```".data content then content.drop 3 else content
  let content := if listStartsWith "```".data.reverse content.reverse then
      content.take (content.length - 3)
    else content
  String.mk (pyStripList content)

/-- Outcome of one loop iteration of `analyze_codebase`: the external call
raised, `json.loads` raised `JSONDecodeError`, the parsed dict was missing
required keys, or the attempt succeeded. -/
inductive AttemptResult where
  | exn (msg : String)
  | parseErr (msg : String)
  | missingKeys (ks : List String)
  | ok (analysis : AnalysisDict)
deriving DecidableEq

/-- One attempt of `analyze_codebase`: call the external model (`gen`,
abstracting `self.model.generate_content` followed by `.text`), strip code
fences, parse (`jsonLoads`, abstracting `json.loads`), and compute the
missing required keys. -/
def analyzeAttempt (gen : Nat → Except String String)
    (jsonLoads : String → Except String AnalysisDict)
    (attempt : Nat) : AttemptResult :=
  match gen attempt with
  | .error e => .exn e
  | .ok raw =>
    let content := stripCodeFences raw
    match jsonLoads content with
    | .error e => .parseErr e
    | .ok analysis =>
      match required_keys.filter (fun k => !(dictHasKey analysis k)) with
      | [] => .ok analysis
      | ks => .missingKeys ks

/-- The retry loop of `analyze_codebase` (`for attempt in range(max_retries)`).
`remaining` counts iterations left, `attempts` counts attempts already made;
when `remaining` reaches the current iteration (`remaining = 1` here, i.e.
`attempt == max_retries - 1` in the source) a failed attempt escalates instead
of retrying.  Returns the number of attempts performed with the result. -/
def analyzeGo (gen : Nat → Except String String)
    (jsonLoads : String → Except String AnalysisDict) :
    Nat → Nat → Nat × Except String AnalysisDict
  | 0, attempts => (attempts, .error "Failed to analyze codebase after multiple attempts")
  | remaining + 1, attempts =>
    match analyzeAttempt gen jsonLoads attempts with
    | .ok analysis => (attempts + 1, .ok analysis)
    | .exn e =>
      if remaining = 0 then (attempts + 1, .error e)
      else analyzeGo gen jsonLoads remaining (attempts + 1)
    | .parseErr e =>
      if remaining = 0 then
        (attempts + 1, .error ("Failed to get valid JSON from Gemini: " ++ e))
      else analyzeGo gen jsonLoads remaining (attempts + 1)
    | .missingKeys ks =>
      if remaining = 0 then
        (attempts + 1, .error ("Incomplete analysis. Missing: " ++ pyReprList ks))
      else analyzeGo gen jsonLoads remaining (attempts + 1)

/-- Embedding of `LLMService.analyze_codebase` (llm_service.py lines 26-98), with the
external model call and `json.loads` as parameters.  Returns the number of
attempts performed together with the result. -/
def analyze_codebase (gen : Nat → Except String String)
    (jsonLoads : String → Except String AnalysisDict)
    (max_retries : Nat) : Nat × Except String AnalysisDict :=
  analyzeGo gen jsonLoads max_retries 0

/-- Python `str()` of the values interpolated by the `format_for_presenton`
f-string (list repr is CPython repr for lists of quote-free strings). -/
def pyStr : PyVal → String
  | .null => "None"
  | .str s => s
  | .strList l => pyReprList l

/-- Python `sep.join(v)`: joins a list of strings; iterating a string joins
its characters; `None` raises `TypeError`. -/
def pyJoin (sep : String) : PyVal → Except String String
  | .strList l => .ok (String.intercalate sep l)
  | .str s => .ok (String.intercalate sep (s.data.map (fun c => String.mk [c])))
  | .null => .error "TypeError: can only join an iterable"

/-- The generator expression `chr(10).join(f"- x" for x in v)` used for the
bulleted sections; iterating a string bullets its characters; `None` raises
`TypeError`. -/
def pyBulleted : PyVal → Except String String
  | .strList l => .ok (String.intercalate "\n" (l.map (fun x => "- " ++ x)))
  | .str s => .ok (String.intercalate "\n" (s.data.map (fun c => "- " ++ String.mk [c])))
  | .null => .error "TypeError: NoneType is not iterable"

/-- Python `analysis[k]`: dict access, `KeyError` when absent. -/
def dictGet (d : AnalysisDict) (k : String) : Except String PyVal :=
  match List.lookup k d with
  | some v => .ok v
  | none => .error ("KeyError: " ++ k)

/-- Embedding of `LLMService.format_for_presenton` (llm_service.py lines 100-137): the
f-string evaluates its interpolations left to right (each dict access may
raise `KeyError`, each join a `TypeError`), concatenates the section template,
and `.strip()`s the result. -/
def format_for_presenton (analysis : AnalysisDict) : Except String String := do
  let project_name ← dictGet analysis "project_name"
  let tagline ← dictGet analysis "tagline"
  let problem ← dictGet analysis "problem"
  let solution ← dictGet analysis "solution"
  let tech_stack ← dictGet analysis "tech_stack"
  let techJoined ← pyJoin ", " tech_stack
  let key_features ← dictGet analysis "key_features"
  let featuresB ← pyBulleted key_features
  let innovation ← dictGet analysis "innovation"
  let architecture ← dictGet analysis "architecture"
  let demo_highlights ← dictGet analysis "demo_highlights"
  let demoB ← pyBulleted demo_highlights
  let future_scope ← dictGet analysis "future_scope"
  let futureB ← pyBulleted future_scope
  let content :=
    "# " ++ pyStr project_name ++ "\n" ++ pyStr tagline ++
    "\n\n## The Problem\n" ++ pyStr problem ++
    "\n\n## Our Solution\n" ++ pyStr solution ++
    "\n\n## Tech Stack\n" ++ techJoined ++
    "\n\n## Key Features\n" ++ featuresB ++
    "\n\n## Innovation\n" ++ pyStr innovation ++
    "\n\n## Architecture\n" ++ pyStr architecture ++
    "\n\n## What We\x27ll Demo\n" ++ demoB ++
    "\n\n## Future Roadmap\n" ++ futureB ++ "\n"
  return pyStrip content

/-! ## Validators (`app/utils/validators.py`) -/

/-- Python regex `\w` over the ASCII inputs this service receives: letters,
digits, underscore. -/
def isWordChar (c : Char) : Bool := c.isAlphanum || c == '_'

/-- The characters after the first `://`, if any. -/
def afterSchemeSep : List Char → Option (List Char)
  | ':' :: '/' :: '/' :: rest => some rest
  | _ :: rest => afterSchemeSep rest
  | [] => none

/-- Python `str.split` on `/`, keeping empty parts. -/
def splitSlash : List Char → List (List Char)
  | [] => [[]]
  | c :: rest =>
    match splitSlash rest with
    | [] => [[c]]
    | h :: t => if c == '/' then [] :: h :: t else (c :: h) :: t

/-- Netloc and path of a URL as `urllib.parse.urlparse` computes them for the
absolute URLs this service receives: the netloc is what follows the first
`://` up to the next slash, query or fragment; the path is the remainder with
query and fragment cut off; a URL without `://` has an empty netloc. -/
def urlNetlocPath (url : String) : String × String :=
  match afterSchemeSep url.data with
  | none => ("", url)
  | some rest =>
    let netloc := rest.takeWhile (fun c => !(c == '/') && !(c == '?') && !(c == '#'))
    let path := (rest.drop netloc.length).takeWhile (fun c => !(c == '?') && !(c == '#'))
    (String.mk netloc, String.mk path)

/-- The path regex of `validate_github_url`: a slash, a nonempty run of word
characters or dashes, a slash, a nonempty run of word characters, dots or
dashes, then an optional final slash (greedy matching coincides with the
regex here because `/` belongs to neither character class). -/
def githubPathOk (path : String) : Bool :=
  match path.data with
  | '/' :: rest =>
    let seg1 := rest.takeWhile (fun c => isWordChar c || c == '-')
    let rest1 := rest.drop seg1.length
    (!seg1.isEmpty) &&
      (match rest1 with
       | '/' :: rest2 =>
         let seg2 := rest2.takeWhile (fun c => isWordChar c || c == '-' || c == '.')
         let rest3 := rest2.drop seg2.length
         (!seg2.isEmpty) && (rest3.isEmpty || rest3 == ['/'])
       | _ => false)
  | _ => false

/-- Embedding of `validate_github_url` (validators.py lines 6-32); `urlLibOk` abstracts the
external `validators.url` library check.  Returns `(is_valid, error_message)`. -/
def validate_github_url (urlLibOk : String → Bool) (url : String) : Bool × String :=
  if url = "" then (false, "URL cannot be empty")
  else if !(urlLibOk url) then (false, "Invalid URL format")
  else if (urlNetlocPath url).1 != "github.com"
      && (urlNetlocPath url).1 != "www.github.com" then
    (false, "URL must be from github.com")
  else if !(githubPathOk (urlNetlocPath url).2) then
    (false, "Invalid GitHub repository URL format. Expected: https://github.com/username/repository")
  else (true, "")

/-- The nonempty path segments `[p for p in parsed.path.split(sep) if p]`. -/
def pathSegments (url : String) : List String :=
  ((splitSlash (urlNetlocPath url).2.data).map String.mk).filter (fun p => p != "")

/-- Python `s.replace(pat, emptyString)` specialised to the pattern `.git`:
scan left to right, removing each non-overlapping occurrence. -/
def removeDotGit : List Char → List Char
  | '.' :: 'g' :: 'i' :: 't' :: rest => removeDotGit rest
  | c :: rest => c :: removeDotGit rest
  | [] => []

/-- Result shape of `extract_repo_info`. -/
structure RepoInfo where
  owner : String
  repo : String
  full_name : String
deriving DecidableEq

/-- Embedding of `extract_repo_info` (validators.py lines 35-52): with at least two path
segments, the owner is the first, the repo is the second with every `.git`
occurrence replaced away, and `full_name` joins them; otherwise all fields
are empty. -/
def extract_repo_info (url : String) : RepoInfo :=
  match pathSegments url with
  | owner :: repo :: _ =>
    let r := String.mk (removeDotGit repo.data)
    { owner := owner, repo := r, full_name := owner ++ "/" ++ r }
  | _ => { owner := "", repo := "", full_name := "" }

/-! ## GitHubService (`app/services/github_service.py`)

The filesystem is modelled by the Boolean existence of the clone target
directory; `git.Repo.clone_from` and `_get_directory_size` are external and
appear as parameters; `shutil.rmtree` is assumed to succeed (its errors are
swallowed into a logged warning by `cleanup_repository`). -/

/-- Errors raised by `clone_repository`, by raise site. -/
inductive CloneError where
  | gitCloneFailed (msg : String)
  | sizeExceeded (size_mb max_mb : ℚ)
deriving DecidableEq

/-- Embedding of `GitHubService.cleanup_repository` (lines 72-85): delete the directory if
it exists; never raises.  Returns the resulting existence of the directory. -/
def cleanup_repository (dirExists : Bool) : Bool :=
  if dirExists then false else false

/-- Embedding of `GitHubService.clone_repository` (lines 19-70) on the Boolean existence of
the clone path: remove a pre-existing directory, clone (`cloneSucceeds`
abstracts `git.Repo.clone_from`; on success the directory exists), compute the
size (`size_mb` abstracts `_get_directory_size`), and fail after deleting the
copy when the size exceeds `max_repo_size_mb`.  Returns the outcome and the
final existence of the directory. -/
def clone_repository (dirExists0 : Bool) (cloneSucceeds : Bool)
    (size_mb max_repo_size_mb : ℚ) (clone_path : String) :
    Except CloneError String × Bool :=
  let _dirAfterRemove := if dirExists0 then false else false
  if cloneSucceeds then
    if size_mb > max_repo_size_mb then
      (.error (.sizeExceeded size_mb max_repo_size_mb), cleanup_repository true)
    else
      (.ok clone_path, true)
  else
    (.error (.gitCloneFailed "Failed to clone repository. It may be private or doesn\x27t exist"), false)

/-- Default `max_repo_size_mb` from `app/config.py`. -/
def defaultMaxRepoSizeMb : ℚ := 500

/-! ## Request model (`app/models/request_models.py`) -/

/-- Closed tone enumeration of the `tone` field validator. -/
def valid_tones : List String :=
  ["default", "casual", "professional", "funny", "educational", "sales_pitch"]

/-- Closed verbosity enumeration of the `verbosity` field validator. -/
def valid_verbosity : List String :=
  ["concise", "standard", "text-heavy"]

/-- A validated `GeneratePresentationRequest`. -/
structure GeneratePresentationRequest where
  github_url : String
  n_slides : Int
  tone : String
  verbosity : String
  language : String
  template : String
  export_as : String
  include_title_slide : Bool
  include_table_of_contents : Bool
  web_search : Bool
  image_type : String
  theme : String
deriving DecidableEq

/-- Pydantic construction of `GeneratePresentationRequest`: the `Field`
bound `5 <= n_slides <= 15` and the tone / verbosity / export-format field
validators plus `validate_github_url`, applied in field order; the first
violation rejects the request. -/
def mkGeneratePresentationRequest (urlLibOk : String → Bool)
    (github_url : String) (n_slides : Int)
    (tone verbosity language template export_as : String)
    (include_title_slide include_table_of_contents web_search : Bool)
    (image_type theme : String) :
    Except String GeneratePresentationRequest :=
  if !(validate_github_url urlLibOk github_url).1 then
    .error (validate_github_url urlLibOk github_url).2
  else if n_slides < 5 ∨ 15 < n_slides then
    .error "n_slides must be between 5 and 15"
  else if !(valid_tones.contains tone) then
    .error ("Tone must be one of: " ++ String.intercalate ", " valid_tones)
  else if !(valid_verbosity.contains verbosity) then
    .error ("Verbosity must be one of: " ++ String.intercalate ", " valid_verbosity)
  else if !(export_as == "pptx" || export_as == "pdf") then
    .error "Export format must be \x27pptx\x27 or \x27pdf\x27"
  else
    .ok { github_url := github_url, n_slides := n_slides, tone := tone,
          verbosity := verbosity, language := language, template := template,
          export_as := export_as, include_title_slide := include_title_slide,
          include_table_of_contents := include_table_of_contents,
          web_search := web_search, image_type := image_type, theme := theme }

/-! ## Pipeline orchestrator (`app/main.py`, `generate_presentation`) -/

/-- The configuration bits the orchestrator reads. -/
structure AppConfig where
  cleanup_after_generation : Bool
deriving DecidableEq

/-- Success payload of the Presenton render call (`response.json()` of a 200
response; per the render contract it carries a presentation id). -/
structure RenderResult where
  presentation_id : String
  path : Option String
  edit_path : Option String
  credits_consumed : Option ℚ
deriving DecidableEq

/-- Embedding of `PresentationResponse` (`app/models/response_models.py`), without the
wall-clock `processing_time` field, which is not modelled. -/
structure PresentationResponse where
  status : String
  presentation_id : String
  download_url : Option String
  edit_url : Option String
  credits_consumed : Option ℚ
  message : String
deriving DecidableEq

/-- The external collaborators of one pipeline run: the preference write
(`settings.update_config`), clone, digest, analysis and render, each with the
outcome Python would observe (an `Except.error` is a raised exception). -/
structure Collaborators where
  update_config : Except String Unit
  clone_repository : String → Except String String
  generate_digest : String → Except String (List Char)
  analyze_codebase : List Char → Except String AnalysisDict
  render : String → GeneratePresentationRequest → Except String RenderResult

instance {ε α : Type} [DecidableEq ε] [DecidableEq α] : DecidableEq (Except ε α) :=
  fun a b =>
    match a, b with
    | .ok x, .ok y => if h : x = y then .isTrue (by rw [h]) else .isFalse (by simp [h])
    | .error x, .error y => if h : x = y then .isTrue (by rw [h]) else .isFalse (by simp [h])
    | .ok _, .error _ => .isFalse (by simp)
    | .error _, .ok _ => .isFalse (by simp)

/-- Observable outcome of one pipeline run: the HTTP-level response and how
often each collaborator and the cleanup were invoked. -/
structure RunResult where
  response : Except String PresentationResponse
  persistAttempted : Bool
  cloneCalls : Nat
  digestCalls : Nat
  analyzeCalls : Nat
  renderCalls : Nat
  cleanupCalls : Nat
deriving DecidableEq

/-- Embedding of `generate_presentation` (main.py lines 81-172): best-effort persist of
preferences (the outcome is caught and discarded), then clone, digest +
truncate, analyze, format, render; on any step failing after a successful
clone the `except` branch cleans the repository up once; on full success the
cleanup runs only when `cleanup_after_generation` is set. -/
def generate_presentation (cfg : AppConfig) (c : Collaborators)
    (req : GeneratePresentationRequest) : RunResult :=
  let _persisted := match c.update_config with
    | .ok _ => true
    | .error _ => false
  match c.clone_repository req.github_url with
  | .error e =>
    { response := .error e, persistAttempted := true,
      cloneCalls := 1, digestCalls := 0, analyzeCalls := 0,
      renderCalls := 0, cleanupCalls := 0 }
  | .ok repo_path =>
    match c.generate_digest repo_path with
    | .error e =>
      { response := .error e, persistAttempted := true,
        cloneCalls := 1, digestCalls := 1, analyzeCalls := 0,
        renderCalls := 0, cleanupCalls := 1 }
    | .ok digest0 =>
      let digest := summarize_digest digest0 defaultDigestMaxLength
      match c.analyze_codebase digest with
      | .error e =>
        { response := .error e, persistAttempted := true,
          cloneCalls := 1, digestCalls := 1, analyzeCalls := 1,
          renderCalls := 0, cleanupCalls := 1 }
      | .ok analysis =>
        match format_for_presenton analysis with
        | .error e =>
          { response := .error e, persistAttempted := true,
            cloneCalls := 1, digestCalls := 1, analyzeCalls := 1,
            renderCalls := 0, cleanupCalls := 1 }
        | .ok content =>
          match c.render content req with
          | .error e =>
            { response := .error e, persistAttempted := true,
              cloneCalls := 1, digestCalls := 1, analyzeCalls := 1,
              renderCalls := 1, cleanupCalls := 1 }
          | .ok result =>
            { response := .ok
                { status := "success",
                  presentation_id := result.presentation_id,
                  download_url := result.path,
                  edit_url := result.edit_path,
                  credits_consumed := result.credits_consumed,
                  message := "Presentation generated successfully" },
              persistAttempted := true,
              cloneCalls := 1, digestCalls := 1, analyzeCalls := 1,
              renderCalls := 1,
              cleanupCalls := if cfg.cleanup_after_generation then 1 else 0 }

/-- The inbound surface: FastAPI validates the request body against
`GeneratePresentationRequest` and rejects shape-invalid input before the
handler (and hence any collaborator) runs. -/
def handle_generate (urlLibOk : String → Bool) (cfg : AppConfig) (c : Collaborators)
    (github_url : String) (n_slides : Int)
    (tone verbosity language template export_as : String)
    (include_title_slide include_table_of_contents web_search : Bool)
    (image_type theme : String) : RunResult :=
  match mkGeneratePresentationRequest urlLibOk github_url n_slides tone verbosity
      language template export_as include_title_slide include_table_of_contents
      web_search image_type theme with
  | .error e =>
    { response := .error e, persistAttempted := false,
      cloneCalls := 0, digestCalls := 0, analyzeCalls := 0,
      renderCalls := 0, cleanupCalls := 0 }
  | .ok req => generate_presentation cfg c req

/-! ## Concrete stubs used by witnesses and counterexamples -/

/-- A valid ten-key analysis payload. -/
def goodDict : AnalysisDict :=
  [("project_name", .str "HackDeck"), ("tagline", .str "Repo to deck"),
   ("problem", .str "Slides take time"), ("solution", .str "Automate them"),
   ("tech_stack", .strList ["Python", "FastAPI"]),
   ("key_features", .strList ["clone", "digest"]),
   ("innovation", .str "Pipeline"), ("architecture", .str "Services"),
   ("demo_highlights", .strList ["run it"]),
   ("future_scope", .strList ["more themes"])]

/-- A ten-key analysis payload whose `tagline` is JSON `null`. -/
def nullDict : AnalysisDict :=
  [("project_name", .str "HackDeck"), ("tagline", .null),
   ("problem", .str "Slides take time"), ("solution", .str "Automate them"),
   ("tech_stack", .strList ["Python"]), ("key_features", .strList ["clone"]),
   ("innovation", .str "Pipeline"), ("architecture", .str "Services"),
   ("demo_highlights", .strList ["run it"]), ("future_scope", .strList ["more"])]

/-- Stub model call that always answers the same non-JSON text. -/
def stubGenBad : Nat → Except String String := fun _ => .ok "not json"

/-- Stub `json.loads` that always raises. -/
def stubLoadsBad : String → Except String AnalysisDict :=
  fun _ => .error "Expecting value: line 1 column 1 (char 0)"

/-- Stub model call that answers garbage on the first two attempts and a
well-formed payload from the third on. -/
def stubGenFlaky : Nat → Except String String :=
  fun n => .ok (if n < 2 then "oops" else "good")

/-- Stub `json.loads` accepting only the well-formed payload text. -/
def stubLoadsFlaky : String → Except String AnalysisDict :=
  fun s => if s = "good" then .ok goodDict
           else .error "Expecting value: line 1 column 1 (char 0)"

/-- Stub `json.loads` returning the payload with a `null` value. -/
def stubLoadsNull : String → Except String AnalysisDict :=
  fun _ => .ok nullDict

/-- Fully successful collaborators for the end-to-end scenario. -/
def stubsOk : Collaborators :=
  { update_config := .ok (),
    clone_repository := fun _ => .ok "temp_repos/octocat_Hello-World",
    generate_digest := fun _ => .ok "digest text".data,
    analyze_codebase := fun _ => .ok goodDict,
    render := fun _ _ => .ok
      { presentation_id := "abc123", path := some "/dl/abc123.pptx",
        edit_path := none, credits_consumed := some 10 } }

/-- Collaborators whose digest step fails. -/
def stubsDigestFail : Collaborators :=
  { stubsOk with generate_digest := fun _ => .error "Generated digest is too short or empty" }

/-- The example request of the end-to-end scenario. -/
def reqExample : GeneratePresentationRequest :=
  { github_url := "https://github.com/octocat/Hello-World", n_slides := 8,
    tone := "professional", verbosity := "concise", language := "English",
    template := "general", export_as := "pptx", include_title_slide := true,
    include_table_of_contents := false, web_search := false,
    image_type := "stock", theme := "professional-dark" }

/-! ## Shared lemmas -/

theorem truncationMarker_length : truncationMarker.length = 48 := by decide

/-! ## C3: idempotence of digest truncation -/

/-- C3: `summarize_digest` is idempotent: truncating a truncated digest again
with the same bound is a no-op, and a digest whose length is within the bound
is returned unchanged. -/
theorem summarize_digest_idempotent :
    (∀ (d : List Char) (n : Nat),
      summarize_digest (summarize_digest d n) n = summarize_digest d n)
    ∧ (∀ (d : List Char) (n : Nat), d.length ≤ n → summarize_digest d n = d) := by
  constructor
  · intro d n
    by_cases h : d.length ≤ n
    · simp [summarize_digest, h]
    · have htake : (d.take n).length = n := by
        rw [List.length_take]; omega
      have hlen : ¬ ((d.take n ++ truncationMarker).length ≤ n) := by
        rw [List.length_append, htake, truncationMarker_length]; omega
      have htl : (d.take n ++ truncationMarker).take n = d.take n := by
        nth_rewrite 1 [← htake]
        exact List.take_left _ _
      simp only [summarize_digest, if_neg h, if_neg hlen, htl]
  · intro d n h
    simp [summarize_digest, h]

/-- Witness for C3 at concrete inputs. -/
theorem summarize_digest_idempotent_witness :
    summarize_digest (summarize_digest "abc".data 2) 2 = summarize_digest "abc".data 2
    ∧ summarize_digest "ab".data 5 = "ab".data :=
  ⟨summarize_digest_idempotent.1 "abc".data 2,
   summarize_digest_idempotent.2 "ab".data 5 (by decide)⟩

/-! ## C5: the truncated digest is NOT bounded by `max_length` -/

/-- C5 counterexample: a 50,001-character digest truncated to the default
bound of 50,000 comes back with 50,048 characters — the truncation marker is
appended after the first 50,000 characters, so the result exceeds the bound. -/
theorem summarize_digest_C5_counterexample :
    (summarize_digest (List.replicate 50001 'a') 50000).length = 50048
    ∧ ¬ ((summarize_digest (List.replicate 50001 'a') 50000).length ≤ 50000) := by
  have hrw : summarize_digest (List.replicate 50001 'a') 50000
      = List.take 50000 (List.replicate 50001 'a') ++ truncationMarker := by
    simp only [summarize_digest, List.length_replicate]
    rw [if_neg (by omega)]
  have hlen : (summarize_digest (List.replicate 50001 'a') 50000).length = 50048 := by
    rw [hrw, List.length_append, List.length_take, List.length_replicate,
      truncationMarker_length]
    omega
  exact ⟨hlen, by rw [hlen]; omega⟩

/-- C5 (amended): the truncated digest is bounded by `max_length` plus the
48-character truncation marker. -/
theorem summarize_digest_length_bound :
    (∀ (d : List Char) (n : Nat),
      (summarize_digest d n).length ≤ n + truncationMarker.length)
    ∧ truncationMarker.length = 48 := by
  refine ⟨fun d n => ?_, truncationMarker_length⟩
  by_cases h : d.length ≤ n
  · simp only [summarize_digest, if_pos h]
    omega
  · simp only [summarize_digest, if_neg h, List.length_append, List.length_take]
    omega

/-! ## C2: analyzer retry bound -/

theorem analyzeAttempt_allParseErr (gen : Nat → Except String String)
    (jsonLoads : String → Except String AnalysisDict)
    (resp : Nat → String) (perr : String → String)
    (hgen : ∀ i, gen i = .ok (resp i))
    (hload : ∀ s, jsonLoads s = .error (perr s)) (i : Nat) :
    analyzeAttempt gen jsonLoads i = .parseErr (perr (stripCodeFences (resp i))) := by
  simp [analyzeAttempt, hgen i, hload]

theorem analyzeGo_allParseErr (gen : Nat → Except String String)
    (jsonLoads : String → Except String AnalysisDict)
    (resp : Nat → String) (perr : String → String)
    (hgen : ∀ i, gen i = .ok (resp i))
    (hload : ∀ s, jsonLoads s = .error (perr s)) :
    ∀ remaining attempts, 1 ≤ remaining →
      analyzeGo gen jsonLoads remaining attempts =
        (attempts + remaining,
         .error ("Failed to get valid JSON from Gemini: " ++
           perr (stripCodeFences (resp (attempts + remaining - 1))))) := by
  intro remaining
  induction remaining with
  | zero => intro attempts h; omega
  | succ r ih =>
    intro attempts _
    rw [analyzeGo, analyzeAttempt_allParseErr gen jsonLoads resp perr hgen hload attempts]
    by_cases hr : r = 0
    · subst hr; simp
    · simp only [if_neg hr]
      rw [ih (attempts + 1) (by omega)]
      have h1 : attempts + 1 + r = attempts + (r + 1) := by omega
      rw [h1]

/-- C2: against a stub text-generation service whose every response fails
JSON parsing, `analyze_codebase` performs exactly `max_retries` attempts and
then fails with the parse error; against a stub that fails parsing on the
first two attempts and yields a complete ten-key payload on the third,
it succeeds on the third attempt. -/
theorem analyze_codebase_retry_bound :
    (∀ (gen : Nat → Except String String)
       (jsonLoads : String → Except String AnalysisDict)
       (resp : Nat → String) (perr : String → String) (max_retries : Nat),
       1 ≤ max_retries →
       (∀ i, gen i = .ok (resp i)) →
       (∀ s, jsonLoads s = .error (perr s)) →
       analyze_codebase gen jsonLoads max_retries =
         (max_retries,
          .error ("Failed to get valid JSON from Gemini: " ++
            perr (stripCodeFences (resp (max_retries - 1))))))
    ∧ (∀ (gen : Nat → Except String String)
         (jsonLoads : String → Except String AnalysisDict)
         (resp : Nat → String) (e0 e1 : String) (d : AnalysisDict),
         (∀ i, gen i = .ok (resp i)) →
         jsonLoads (stripCodeFences (resp 0)) = .error e0 →
         jsonLoads (stripCodeFences (resp 1)) = .error e1 →
         jsonLoads (stripCodeFences (resp 2)) = .ok d →
         required_keys.filter (fun k => !(dictHasKey d k)) = [] →
         analyze_codebase gen jsonLoads 3 = (3, .ok d)) := by
  constructor
  · intro gen jsonLoads resp perr max_retries hmr hgen hload
    have := analyzeGo_allParseErr gen jsonLoads resp perr hgen hload max_retries 0 hmr
    rw [analyze_codebase, this]
    simp
  · intro gen jsonLoads resp e0 e1 d hgen h0 h1 h2 hkeys
    simp [analyze_codebase, analyzeGo, analyzeAttempt, hgen, h0, h1, h2, hkeys]

/-- Witness for C2: the always-malformed stub is retried exactly 3 times and
fails with the parse error; the fail-twice-then-succeed stub returns the
ten-key payload on the third attempt. -/
theorem analyze_codebase_retry_bound_witness :
    analyze_codebase stubGenBad stubLoadsBad 3 =
      (3, .error ("Failed to get valid JSON from Gemini: " ++
        "Expecting value: line 1 column 1 (char 0)"))
    ∧ analyze_codebase stubGenFlaky stubLoadsFlaky 3 = (3, .ok goodDict) := by
  constructor
  · exact analyze_codebase_retry_bound.1 stubGenBad stubLoadsBad
      (fun _ => "not json")
      (fun _ => "Expecting value: line 1 column 1 (char 0)") 3
      (by omega) (fun _ => rfl) (fun _ => rfl)
  · exact analyze_codebase_retry_bound.2 stubGenFlaky stubLoadsFlaky
      (fun n => if n < 2 then "oops" else "good")
      "Expecting value: line 1 column 1 (char 0)"
      "Expecting value: line 1 column 1 (char 0)" goodDict
      (fun _ => rfl) (by decide) (by decide) (by decide) (by decide)

/-! ## C4: key presence in successful analyses -/

theorem analyzeAttempt_ok_filter (gen : Nat → Except String String)
    (jsonLoads : String → Except String AnalysisDict) (i : Nat) (d : AnalysisDict)
    (h : analyzeAttempt gen jsonLoads i = .ok d) :
    required_keys.filter (fun k => !(dictHasKey d k)) = [] := by
  unfold analyzeAttempt at h
  cases hg : gen i with
  | error e => rw [hg] at h; simp at h
  | ok raw =>
    rw [hg] at h
    simp only at h
    cases hl : jsonLoads (stripCodeFences raw) with
    | error e => rw [hl] at h; simp at h
    | ok a =>
      rw [hl] at h
      simp only at h
      cases hf : required_keys.filter (fun k => !(dictHasKey a k)) with
      | nil => rw [hf] at h; simp at h; rw [← h]; exact hf
      | cons x xs => rw [hf] at h; simp at h

theorem analyzeGo_ok_filter (gen : Nat → Except String String)
    (jsonLoads : String → Except String AnalysisDict) :
    ∀ remaining attempts n d,
      analyzeGo gen jsonLoads remaining attempts = (n, .ok d) →
      required_keys.filter (fun k => !(dictHasKey d k)) = [] := by
  intro remaining
  induction remaining with
  | zero => intro attempts n d h; simp [analyzeGo] at h
  | succ r ih =>
    intro attempts n d h
    rw [analyzeGo] at h
    cases ha : analyzeAttempt gen jsonLoads attempts with
    | ok a =>
      rw [ha] at h
      simp only [Prod.mk.injEq, Except.ok.injEq] at h
      obtain ⟨-, h2⟩ := h
      subst h2
      exact analyzeAttempt_ok_filter gen jsonLoads attempts a ha
    | exn e =>
      rw [ha] at h
      by_cases hr : r = 0
      · subst hr; simp at h
      · simp only [if_neg hr] at h; exact ih (attempts + 1) n d h
    | parseErr e =>
      rw [ha] at h
      by_cases hr : r = 0
      · subst hr; simp at h
      · simp only [if_neg hr] at h; exact ih (attempts + 1) n d h
    | missingKeys ks =>
      rw [ha] at h
      by_cases hr : r = 0
      · subst hr; simp at h
      · simp only [if_neg hr] at h; exact ih (attempts + 1) n d h

/-- C4 (amended): every dictionary returned successfully by
`analyze_codebase` carries all ten required keys — a response missing a key
is retried or escalated, never returned — but the values are not checked
against JSON `null`. -/
theorem analyze_codebase_success_keys (gen : Nat → Except String String)
    (jsonLoads : String → Except String AnalysisDict)
    (max_retries n : Nat) (d : AnalysisDict)
    (h : analyze_codebase gen jsonLoads max_retries = (n, .ok d)) :
    ∀ k ∈ required_keys, dictHasKey d k = true := by
  have hf := analyzeGo_ok_filter gen jsonLoads max_retries 0 n d h
  intro k hk
  have := List.filter_eq_nil_iff.mp hf k hk
  simpa using this

/-- Witness for C4 at a concrete successful run. -/
theorem analyze_codebase_success_keys_witness :
    dictHasKey goodDict "future_scope" = true :=
  analyze_codebase_success_keys stubGenFlaky stubLoadsFlaky 3 3 goodDict
    (by decide) "future_scope" (by decide)

/-- C4 counterexample: a stub whose parsed response carries all ten keys but
a JSON `null` value for `tagline` is returned by `analyze_codebase` as a
success on the first attempt — null values are not rejected. -/
theorem analyze_codebase_C4_counterexample :
    analyze_codebase stubGenBad stubLoadsNull 3 = (1, .ok nullDict)
    ∧ List.lookup "tagline" nullDict = some PyVal.null := by
  exact ⟨by decide, by decide⟩

/-! ## C6: size enforcement in clone_repository -/

/-- C6: when the clone succeeds but the computed size exceeds the configured
ceiling, `clone_repository` fails with the size-exceeded error and deletes
the partial copy before raising: no residual directory remains. -/
theorem clone_repository_size_exceeded (dirExists0 : Bool)
    (size_mb max_mb : ℚ) (clone_path : String) (h : size_mb > max_mb) :
    clone_repository dirExists0 true size_mb max_mb clone_path
      = (.error (.sizeExceeded size_mb max_mb), false) := by
  simp [clone_repository, cleanup_repository, h]

/-- Witness for C6: a 501 MB copy against the default 500 MB ceiling. -/
theorem clone_repository_size_exceeded_witness :
    clone_repository true true 501 defaultMaxRepoSizeMb "temp_repos/o_r"
      = (.error (.sizeExceeded 501 defaultMaxRepoSizeMb), false) :=
  clone_repository_size_exceeded true 501 defaultMaxRepoSizeMb "temp_repos/o_r"
    (by norm_num [defaultMaxRepoSizeMb])

/-! ## C7: the formatter is pure, total and deterministic on valid FactSets -/

/-- C7: on any FactSet carrying the ten required keys with string fields for
the prose sections and string lists for `tech_stack`, `key_features`,
`demo_highlights` and `future_scope`, `format_for_presenton` cannot fail and
returns exactly the fixed-order section concatenation (title+tagline,
problem, solution, comma-joined tech stack, bulleted key features,
innovation, architecture, bulleted demo highlights, bulleted future scope);
being a function of the FactSet, identical input yields byte-identical
output. -/
theorem format_for_presenton_total_deterministic (d : AnalysisDict)
    (pn tg pb so iv ar : String) (ts kf dh fu : List String)
    (h1 : List.lookup "project_name" d = some (.str pn))
    (h2 : List.lookup "tagline" d = some (.str tg))
    (h3 : List.lookup "problem" d = some (.str pb))
    (h4 : List.lookup "solution" d = some (.str so))
    (h5 : List.lookup "tech_stack" d = some (.strList ts))
    (h6 : List.lookup "key_features" d = some (.strList kf))
    (h7 : List.lookup "innovation" d = some (.str iv))
    (h8 : List.lookup "architecture" d = some (.str ar))
    (h9 : List.lookup "demo_highlights" d = some (.strList dh))
    (h10 : List.lookup "future_scope" d = some (.strList fu)) :
    format_for_presenton d = .ok (pyStrip (
      "# " ++ pn ++ "\n" ++ tg ++
      "\n\n## The Problem\n" ++ pb ++
      "\n\n## Our Solution\n" ++ so ++
      "\n\n## Tech Stack\n" ++ String.intercalate ", " ts ++
      "\n\n## Key Features\n" ++ String.intercalate "\n" (kf.map (fun x => "- " ++ x)) ++
      "\n\n## Innovation\n" ++ iv ++
      "\n\n## Architecture\n" ++ ar ++
      "\n\n## What We\x27ll Demo\n" ++ String.intercalate "\n" (dh.map (fun x => "- " ++ x)) ++
      "\n\n## Future Roadmap\n" ++ String.intercalate "\n" (fu.map (fun x => "- " ++ x)) ++
      "\n")) := by
  simp [format_for_presenton, dictGet, h1, h2, h3, h4, h5, h6, h7, h8, h9, h10,
    pyJoin, pyBulleted, pyStr, Bind.bind, Except.instMonad, Except.bind,
    Except.map, Pure.pure, Except.pure]

/-- Witness for C7 at the concrete ten-key payload. -/
theorem format_for_presenton_total_deterministic_witness :
    format_for_presenton goodDict = .ok (pyStrip (
      "# " ++ "HackDeck" ++ "\n" ++ "Repo to deck" ++
      "\n\n## The Problem\n" ++ "Slides take time" ++
      "\n\n## Our Solution\n" ++ "Automate them" ++
      "\n\n## Tech Stack\n" ++ String.intercalate ", " ["Python", "FastAPI"] ++
      "\n\n## Key Features\n" ++
        String.intercalate "\n" (["clone", "digest"].map (fun x => "- " ++ x)) ++
      "\n\n## Innovation\n" ++ "Pipeline" ++
      "\n\n## Architecture\n" ++ "Services" ++
      "\n\n## What We\x27ll Demo\n" ++
        String.intercalate "\n" (["run it"].map (fun x => "- " ++ x)) ++
      "\n\n## Future Roadmap\n" ++
        String.intercalate "\n" (["more themes"].map (fun x => "- " ++ x)) ++
      "\n")) :=
  format_for_presenton_total_deterministic goodDict
    "HackDeck" "Repo to deck" "Slides take time" "Automate them"
    "Pipeline" "Services" ["Python", "FastAPI"] ["clone", "digest"]
    ["run it"] ["more themes"] rfl rfl rfl rfl rfl rfl rfl rfl rfl rfl

/-! ## C9: best-effort persistence never aborts the pipeline -/

/-- C9: the preference write at the start of each run is caught, logged and
discarded: a run whose `update_config` raises is identical — same response,
same collaborator invocations, same cleanup — to the run where it succeeds. -/
theorem persist_failure_never_aborts (cfg : AppConfig) (c : Collaborators)
    (req : GeneratePresentationRequest) (e : String) :
    generate_presentation cfg { c with update_config := .error e } req
      = generate_presentation cfg { c with update_config := .ok () } req := by
  rfl

/-! ## C1: cleanup invocation count of the orchestrator -/

/-- C1 (amended): per run, `cleanup_repository` is invoked zero times when
acquisition fails; exactly once when acquisition succeeded and a later step
failed; and on full success exactly once when `cleanup_after_generation` is
enabled (the default) and zero times when it is disabled. -/
theorem cleanup_calls_characterization (cfg : AppConfig) (c : Collaborators)
    (req : GeneratePresentationRequest) :
    (generate_presentation cfg c req).cleanupCalls =
      match c.clone_repository req.github_url with
      | .error _ => 0
      | .ok _ =>
        if (generate_presentation cfg c req).response.isOk then
          (if cfg.cleanup_after_generation then 1 else 0)
        else 1 := by
  cases hclone : c.clone_repository req.github_url with
  | error e => simp [generate_presentation, hclone]
  | ok p =>
    cases hd : c.generate_digest p with
    | error e => simp [generate_presentation, hclone, hd, Except.isOk, Except.toBool]
    | ok dg =>
      cases ha : c.analyze_codebase (summarize_digest dg defaultDigestMaxLength) with
      | error e => simp [generate_presentation, hclone, hd, ha, Except.isOk, Except.toBool]
      | ok an =>
        cases hf : format_for_presenton an with
        | error e => simp [generate_presentation, hclone, hd, ha, hf, Except.isOk, Except.toBool]
        | ok content =>
          cases hr : c.render content req with
          | error e => simp [generate_presentation, hclone, hd, ha, hf, hr, Except.isOk, Except.toBool]
          | ok r => simp [generate_presentation, hclone, hd, ha, hf, hr, Except.isOk, Except.toBool]

/-- C1 counterexample: with the cleanup policy disabled, a run whose
acquisition succeeded and whose every later step succeeded invokes
`cleanup_repository` zero times, not exactly once. -/
theorem cleanup_C1_counterexample :
    stubsOk.clone_repository reqExample.github_url = .ok "temp_repos/octocat_Hello-World"
    ∧ (generate_presentation ⟨false⟩ stubsOk reqExample).response.isOk = true
    ∧ (generate_presentation ⟨false⟩ stubsOk reqExample).cleanupCalls = 0 := by
  exact ⟨rfl, rfl, rfl⟩

/-! ## C8: validation rejects shape-invalid requests before any collaborator -/

theorem validate_github_url_ok (urlLibOk : String → Bool) (url : String)
    (h : (validate_github_url urlLibOk url).1 = true) :
    ((urlNetlocPath url).1 = "github.com" ∨ (urlNetlocPath url).1 = "www.github.com")
    ∧ githubPathOk (urlNetlocPath url).2 = true := by
  unfold validate_github_url at h
  split_ifs at h with h1 h2 h3 h4
  constructor
  · by_contra hc
    push_neg at hc
    refine h3 ?_
    simp only [Bool.and_eq_true, bne_iff_ne]
    exact ⟨hc.1, hc.2⟩
  · simpa using h4

theorem mkRequest_ok_inversion (urlLibOk : String → Bool)
    (github_url : String) (n_slides : Int)
    (tone verbosity language template export_as : String)
    (its itoc ws : Bool) (image_type theme : String)
    (req : GeneratePresentationRequest)
    (h : mkGeneratePresentationRequest urlLibOk github_url n_slides tone verbosity
        language template export_as its itoc ws image_type theme = .ok req) :
    (validate_github_url urlLibOk github_url).1 = true
    ∧ 5 ≤ n_slides ∧ n_slides ≤ 15
    ∧ valid_tones.contains tone = true
    ∧ valid_verbosity.contains verbosity = true
    ∧ (export_as = "pptx" ∨ export_as = "pdf") := by
  unfold mkGeneratePresentationRequest at h
  split_ifs at h with h1 h2 h3 h4 h5
  push_neg at h2
  refine ⟨by simpa using h1, by omega, by omega, by simpa using h3,
    by simpa using h4, ?_⟩
  have h5' : ¬export_as = "pptx" → export_as = "pdf" := by simpa using h5
  by_cases hx : export_as = "pptx"
  · exact Or.inl hx
  · exact Or.inr (h5' hx)

/-- C8: a request whose URL is not `host/owner/repo` on github.com, or whose
slide count lies outside 5..15, or whose tone, verbosity or export format is
outside the closed enumerations, is rejected before any collaborator runs:
the response is a failure and the clone, digest, analyze, render, cleanup
and preference-persist steps are all invoked zero times. -/
theorem handle_generate_rejects_invalid (urlLibOk : String → Bool)
    (cfg : AppConfig) (c : Collaborators) (github_url : String) (n_slides : Int)
    (tone verbosity language template export_as : String)
    (its itoc ws : Bool) (image_type theme : String)
    (h : ((urlNetlocPath github_url).1 ≠ "github.com"
            ∧ (urlNetlocPath github_url).1 ≠ "www.github.com")
        ∨ githubPathOk (urlNetlocPath github_url).2 = false
        ∨ n_slides < 5 ∨ 15 < n_slides
        ∨ valid_tones.contains tone = false
        ∨ valid_verbosity.contains verbosity = false
        ∨ (export_as ≠ "pptx" ∧ export_as ≠ "pdf")) :
    (handle_generate urlLibOk cfg c github_url n_slides tone verbosity language
        template export_as its itoc ws image_type theme).response.isOk = false
    ∧ (handle_generate urlLibOk cfg c github_url n_slides tone verbosity language
        template export_as its itoc ws image_type theme).cloneCalls = 0
    ∧ (handle_generate urlLibOk cfg c github_url n_slides tone verbosity language
        template export_as its itoc ws image_type theme).digestCalls = 0
    ∧ (handle_generate urlLibOk cfg c github_url n_slides tone verbosity language
        template export_as its itoc ws image_type theme).analyzeCalls = 0
    ∧ (handle_generate urlLibOk cfg c github_url n_slides tone verbosity language
        template export_as its itoc ws image_type theme).renderCalls = 0
    ∧ (handle_generate urlLibOk cfg c github_url n_slides tone verbosity language
        template export_as its itoc ws image_type theme).cleanupCalls = 0
    ∧ (handle_generate urlLibOk cfg c github_url n_slides tone verbosity language
        template export_as its itoc ws image_type theme).persistAttempted = false := by
  cases hmk : mkGeneratePresentationRequest urlLibOk github_url n_slides tone
      verbosity language template export_as its itoc ws image_type theme with
  | error e => simp [handle_generate, hmk, Except.isOk, Except.toBool]
  | ok req =>
    exfalso
    obtain ⟨hv, h5n, h15, ht, hvb, hex⟩ := mkRequest_ok_inversion urlLibOk github_url
      n_slides tone verbosity language template export_as its itoc ws image_type
      theme req hmk
    obtain ⟨hnet, hpath⟩ := validate_github_url_ok urlLibOk github_url hv
    rcases h with ⟨hn1, hn2⟩ | hp | hlt | hgt | htone | hverb | ⟨he1, he2⟩
    · rcases hnet with hx | hx
      · exact hn1 hx
      · exact hn2 hx
    · rw [hp] at hpath; exact Bool.false_ne_true hpath
    · omega
    · omega
    · rw [htone] at ht; exact Bool.false_ne_true ht
    · rw [hverb] at hvb; exact Bool.false_ne_true hvb
    · rcases hex with hx | hx
      · exact he1 hx
      · exact he2 hx

/-- Witness for C8: a gitlab.com URL with otherwise valid fields is rejected
with no collaborator invocations. -/
theorem handle_generate_rejects_invalid_witness :
    (handle_generate (fun _ => true) ⟨true⟩ stubsOk "https://gitlab.com/x/y" 8
      "professional" "concise" "English" "general" "pptx" true false false
      "stock" "professional-dark").response.isOk = false
    ∧ (handle_generate (fun _ => true) ⟨true⟩ stubsOk "https://gitlab.com/x/y" 8
      "professional" "concise" "English" "general" "pptx" true false false
      "stock" "professional-dark").cloneCalls = 0
    ∧ (handle_generate (fun _ => true) ⟨true⟩ stubsOk "https://gitlab.com/x/y" 8
      "professional" "concise" "English" "general" "pptx" true false false
      "stock" "professional-dark").persistAttempted = false := by
  have h := handle_generate_rejects_invalid (fun _ => true) ⟨true⟩ stubsOk
    "https://gitlab.com/x/y" 8 "professional" "concise" "English" "general"
    "pptx" true false false "stock" "professional-dark"
    (Or.inl (by decide))
  exact ⟨h.1, h.2.1, h.2.2.2.2.2.2⟩

/-! ## C10: extract_repo_info removes every `.git` occurrence -/

/-- C10: for a URL whose path has at least two segments, `extract_repo_info`
takes the first segment as owner and removes every occurrence of `.git` from
the second segment (not only a trailing suffix: `my.github-tools` becomes
`myhub-tools`) for the repo name and full name; for fewer than two segments
it returns empty strings rather than failing. -/
theorem extract_repo_info_spec :
    (∀ url owner repo rest, pathSegments url = owner :: repo :: rest →
        extract_repo_info url =
          { owner := owner, repo := String.mk (removeDotGit repo.data),
            full_name := owner ++ "/" ++ String.mk (removeDotGit repo.data) })
    ∧ extract_repo_info "https://github.com/owner/my.github-tools" =
        { owner := "owner", repo := "myhub-tools", full_name := "owner/myhub-tools" }
    ∧ extract_repo_info "https://github.com/o/r.git" =
        { owner := "o", repo := "r", full_name := "o/r" }
    ∧ (∀ url, (pathSegments url).length < 2 →
        extract_repo_info url = { owner := "", repo := "", full_name := "" }) := by
  refine ⟨?_, by decide, by decide, ?_⟩
  · intro url owner repo rest h
    simp [extract_repo_info, h]
  · intro url h
    unfold extract_repo_info
    cases hps : pathSegments url with
    | nil => rfl
    | cons a t =>
      cases t with
      | nil => rfl
      | cons b t2 => rw [hps] at h; simp at h; omega

/-- Witness for C10: a suffix `.git` is stripped from a two-segment path, and
a URL with fewer than two segments yields empty fields. -/
theorem extract_repo_info_spec_witness :
    extract_repo_info "https://github.com/octocat/Hello-World.git" =
      { owner := "octocat", repo := "Hello-World", full_name := "octocat/Hello-World" }
    ∧ extract_repo_info "https://github.com" =
      { owner := "", repo := "", full_name := "" } := by
  constructor
  · have h := extract_repo_info_spec.1 "https://github.com/octocat/Hello-World.git"
      "octocat" "Hello-World.git" [] (by decide)
    rw [h]; decide
  · exact extract_repo_info_spec.2.2.2 "https://github.com" (by decide)

end HackDeck
